import Mathlib

/-!
Shallow embedding of the context-attachment core of `rust-dangerous`
(`src/error/context.rs`): the `Context` trait with its three built-in
implementations (`&'static str`, `ExpectedContext`, `OperationContext`),
the `Any` downcast escape hatch, and the `with_context` plumbing function.

Modelling decisions:
* A `fmt::Write` sink is a string buffer together with an acceptance
  predicate on the written string; `write_str` either appends to the
  buffer or fails with `FmtError` (the embedding of `fmt::Error`).
* The `Context` trait object is a closed inductive with one constructor
  per implementation found in the source; the trait's default methods are
  separate definitions used by the implementation that does not override
  them (`OperationContext`).
* `with_context` is generic over the error type's `WithContext::with_context`
  method, passed as a function `wc`.  Its observable effects (calls to the
  error-incorporation boundary and writes to any text sink) are returned
  as an explicit event trace alongside the result, mirroring exactly what
  the source body does in each branch.
-/

namespace RustDangerous

/-- Embedding of `core::fmt::Error`: a unit-like error value. -/
inductive FmtError where
  | mk
deriving DecidableEq

/-- Embedding of a `fmt::Write` text sink: the text written so far, and a
predicate saying which writes the underlying sink accepts (a sink "may
fail"). -/
structure Sink where
  buf : String
  writeOk : String → Bool

/-- Embedding of `fmt::Write::write_str`: append the string to the buffer,
or fail with `fmt::Error` if the underlying sink rejects the write. -/
def Sink.write_str (w : Sink) (s : String) : Except FmtError Sink :=
  if w.writeOk s then .ok ⟨w.buf ++ s, w.writeOk⟩ else .error .mk

/-- Embedding of `ExpectedContext { operation, expected }` from the source. -/
structure ExpectedContext where
  operation : String
  expected : String
deriving DecidableEq

/-- Embedding of `OperationContext(op)` from the source; `op` is the tuple
field `.0`. -/
structure OperationContext where
  op : String
deriving DecidableEq

/-- The `Context` trait object: a closed inductive with one constructor per
implementation in the source file: `&'static str`, `ExpectedContext`,
`OperationContext`. -/
inductive Context where
  | str (label : String)
  | expCtx (c : ExpectedContext)
  | opCtx (c : OperationContext)
deriving DecidableEq

/-- The trait's default body of `Context::has_expected`: `false`. -/
def Context.default_has_expected : Bool := false

/-- The trait's default body of `Context::expected`: `Err(fmt::Error)`,
the programming-error sentinel. -/
def Context.default_expected (_w : Sink) : Except FmtError Sink :=
  .error .mk

/-- Dynamic dispatch of `Context::operation`, one branch per source impl:
the bare label writes the literal `"context"`, the other two write their
operation field. -/
def Context.operation : Context → Sink → Except FmtError Sink
  | .str _, w => w.write_str "context"
  | .expCtx c, w => w.write_str c.operation
  | .opCtx c, w => w.write_str c.op

/-- Dynamic dispatch of `Context::has_expected`: the bare label overrides
with `true`, `ExpectedContext` with `!self.expected.is_empty()`, and
`OperationContext` inherits the trait default. -/
def Context.has_expected : Context → Bool
  | .str _ => true
  | .expCtx c => !c.expected.isEmpty
  | .opCtx _ => Context.default_has_expected

/-- Dynamic dispatch of `Context::expected`: the bare label writes itself,
`ExpectedContext` writes its `expected` field, and `OperationContext`
inherits the trait default (the `Err(fmt::Error)` sentinel). -/
def Context.expected : Context → Sink → Except FmtError Sink
  | .str label, w => w.write_str label
  | .expCtx c, w => w.write_str c.expected
  | .opCtx _, w => Context.default_expected w

/-- Embedding of `&dyn Any`: a type-erased value carrying its dynamic type
tag, one constructor per concrete context type in the source. -/
inductive AnyRef where
  | ofStr (s : String)
  | ofExpectedContext (c : ExpectedContext)
  | ofOperationContext (c : OperationContext)
deriving DecidableEq

/-- Dynamic dispatch of `Context::as_any`: every impl returns `self`, so
the erased value carries exactly the original concrete value. -/
def Context.as_any : Context → AnyRef
  | .str s => .ofStr s
  | .expCtx c => .ofExpectedContext c
  | .opCtx c => .ofOperationContext c

/-- Embedding of `Any::downcast_ref::<&'static str>`: succeeds exactly when
the dynamic type is the bare label. -/
def AnyRef.downcast_str : AnyRef → Option String
  | .ofStr s => some s
  | _ => none

/-- Embedding of `Any::downcast_ref::<ExpectedContext>`. -/
def AnyRef.downcast_expectedContext : AnyRef → Option ExpectedContext
  | .ofExpectedContext c => some c
  | _ => none

/-- Embedding of `Any::downcast_ref::<OperationContext>`. -/
def AnyRef.downcast_operationContext : AnyRef → Option OperationContext
  | .ofOperationContext c => some c
  | _ => none

/-- Observable effects of the attachment plumbing: a call to the error's
`WithContext::with_context` (the error-incorporation boundary) with its
exact arguments, or a write of a string to some text sink. -/
inductive AttachEvent (ι γ : Type) where
  | incorporate (span : ι) (ctx : γ)
  | sinkWrite (s : String)
deriving DecidableEq

/-- Embedding of the plumbing function `with_context` from the source:

```
match f() {
    Ok(ok) => Ok(ok),
    Err(err) => Err(err.with_context(input, context)),
}
```

`ι` stands for the `impl Input` span type, `γ` for the `impl Context`
type, and `wc` for the error type's `WithContext::with_context` method.
The second component of the result is the trace of observable effects the
body performs: the `Ok` branch performs none, the `Err` branch performs
exactly one call to the incorporation boundary; the body never writes to
a text sink. -/
def with_context {ι γ T E : Type} (wc : E → ι → γ → E)
    (input : ι) (context : γ) (f : Unit → Except E T) :
    Except E T × List (AttachEvent ι γ) :=
  match f () with
  | .ok v => (.ok v, [])
  | .error e => (.error (wc e input context), [.incorporate input context])

/-- C1: for every span, context and inner computation returning `Ok v`,
`with_context` returns exactly `Ok v` (for every incorporation operation
`wc`, which is therefore never called) and its effect trace is empty: zero
calls to the error-incorporation boundary and zero sink writes. -/
theorem with_context_ok_passthrough {ι γ T E : Type} (wc : E → ι → γ → E)
    (input : ι) (context : γ) (f : Unit → Except E T) (v : T)
    (h : f () = .ok v) :
    with_context wc input context f = (.ok v, []) := by
  unfold with_context
  rw [h]

/-- Witness for C1 at a concrete input. -/
theorem with_context_ok_passthrough_witness :
    with_context (E := List (Nat × Nat)) (fun e s c => e ++ [(s, c)]) 1 2
      (fun _ => .ok 7) = (.ok 7, []) :=
  with_context_ok_passthrough (fun e s c => e ++ [(s, c)]) 1 2
    (fun _ => .ok 7) 7 rfl

/-- C2: for every span, context and inner computation returning `Err e`,
`with_context` calls the error-incorporation boundary exactly once, with
exactly the span and context it was given, and returns `Err` of the
enriched error `wc e input context` that the boundary produces. -/
theorem with_context_err_incorporates {ι γ T E : Type} (wc : E → ι → γ → E)
    (input : ι) (context : γ) (f : Unit → Except E T) (e : E)
    (h : f () = .error e) :
    with_context wc input context f
      = (.error (wc e input context), [.incorporate input context]) := by
  unfold with_context
  rw [h]

/-- Witness for C2 at a concrete input: the error (a list of frames) gains
exactly the frame `(1, 2)`. -/
theorem with_context_err_incorporates_witness :
    with_context (T := Nat) (fun e s c => e ++ [(s, c)]) 1 2
      (fun _ => .error [(0, 0)])
      = (.error [(0, 0), (1, 2)], [.incorporate 1 2]) :=
  with_context_err_incorporates (fun e s c => e ++ [(s, c)]) 1 2
    (fun _ => .error [(0, 0)]) [(0, 0)] rfl

/-- C3: `with_context` never fails in a way its inner computation did not:
its result is either the inner success passed through, or the inner error
enriched by the error type's own incorporation operation `wc`; and its
effect trace never contains a sink write, so it never invokes a context's
`operation`/`expected` renderer and no formatting error can arise inside
it. -/
theorem with_context_no_new_failure {ι γ T E : Type} (wc : E → ι → γ → E)
    (input : ι) (context : γ) (f : Unit → Except E T) :
    ((∃ v, f () = .ok v ∧ with_context wc input context f = (.ok v, [])) ∨
      (∃ e, f () = .error e ∧ with_context wc input context f
        = (.error (wc e input context), [.incorporate input context]))) ∧
    ∀ s, AttachEvent.sinkWrite s ∉ (with_context wc input context f).2 := by
  unfold with_context
  cases hf : f () with
  | ok v =>
    refine ⟨Or.inl ⟨v, rfl, rfl⟩, ?_⟩
    intro s
    simp
  | error e =>
    refine ⟨Or.inr ⟨e, rfl, rfl⟩, ?_⟩
    intro s
    simp

/-- C4: nesting two attachments around one failing computation yields the
error `wc (wc e s1 c1) s2 c2`, i.e. `e.with_context(s1, c1).with_context(s2, c2)`:
the incorporation boundary is called once per attachment crossing, in
execution order, innermost first, so the error carries two frames each
with its own span. -/
theorem with_context_nested {ι γ T E : Type} (wc : E → ι → γ → E)
    (s1 s2 : ι) (c1 c2 : γ) (f : Unit → Except E T) (e : E)
    (h : f () = .error e) :
    with_context wc s2 c2 (fun _ => (with_context wc s1 c1 f).1)
      = (.error (wc (wc e s1 c1) s2 c2), [.incorporate s2 c2]) ∧
    (with_context wc s1 c1 f).2
        ++ (with_context wc s2 c2 (fun _ => (with_context wc s1 c1 f).1)).2
      = [.incorporate s1 c1, .incorporate s2 c2] := by
  unfold with_context
  rw [h]
  exact ⟨rfl, rfl⟩

/-- Witness for C4 at a concrete input: with frame-list errors and an
appending incorporation operation, the nested attachments produce the
frames `[(1, 10), (2, 20)]` — two frames, each with its own span,
innermost recorded first. -/
theorem with_context_nested_witness :
    with_context (T := Nat) (fun e s c => e ++ [(s, c)]) 2 20
        (fun _ => (with_context (fun e s c => e ++ [(s, c)]) 1 10
          (fun _ => .error [])).1)
      = (.error [(1, 10), (2, 20)], [.incorporate 2 20]) :=
  (with_context_nested (fun e s c => e ++ [(s, c)]) 1 2 10 20
    (fun _ => .error []) [] rfl).1

/-- A concrete sink whose underlying writer accepts every write. -/
def okSink : Sink := ⟨"", fun _ => true⟩

/-- C5: for the bare-label variant (`impl Context for &'static str`), for
every label text and every sink, `has_expected` is `true`, `expected`
writes exactly the label text to the sink, and `operation` writes exactly
the literal `"context"`. -/
theorem str_label_context_spec (label : String) (w : Sink) :
    (Context.str label).has_expected = true ∧
    (Context.str label).expected w = w.write_str label ∧
    (Context.str label).operation w = w.write_str "context" ∧
    (w.writeOk label = true →
      (Context.str label).expected w = .ok ⟨w.buf ++ label, w.writeOk⟩) ∧
    (w.writeOk "context" = true →
      (Context.str label).operation w
        = .ok ⟨w.buf ++ "context", w.writeOk⟩) := by
  refine ⟨rfl, rfl, rfl, ?_, ?_⟩ <;> intro hw <;>
    simp [Context.expected, Context.operation, Sink.write_str, hw]

/-- Witness for C5 at a concrete label and an accepting sink. -/
theorem str_label_context_spec_witness :
    (Context.str "foo").has_expected = true ∧
    (Context.str "foo").expected okSink
      = .ok ⟨okSink.buf ++ "foo", okSink.writeOk⟩ ∧
    (Context.str "foo").operation okSink
      = .ok ⟨okSink.buf ++ "context", okSink.writeOk⟩ :=
  ⟨(str_label_context_spec "foo" okSink).1,
   (str_label_context_spec "foo" okSink).2.2.2.1 rfl,
   (str_label_context_spec "foo" okSink).2.2.2.2 rfl⟩

/-- C6: for the pair variant (`ExpectedContext`), `has_expected` is `true`
iff the `expected` field is non-empty; `expected` writes the `expected`
field verbatim to the sink; `operation` writes the `operation` field
verbatim, regardless of the emptiness of the `expected` field. -/
theorem expectedContext_spec (c : ExpectedContext) (w : Sink) :
    ((Context.expCtx c).has_expected = true ↔ c.expected ≠ "") ∧
    (Context.expCtx c).expected w = w.write_str c.expected ∧
    (Context.expCtx c).operation w = w.write_str c.operation ∧
    (w.writeOk c.expected = true →
      (Context.expCtx c).expected w
        = .ok ⟨w.buf ++ c.expected, w.writeOk⟩) ∧
    (w.writeOk c.operation = true →
      (Context.expCtx c).operation w
        = .ok ⟨w.buf ++ c.operation, w.writeOk⟩) := by
  refine ⟨?_, rfl, rfl, ?_, ?_⟩
  · simp [Context.has_expected, ← String.isEmpty_iff]
  · intro hw
    simp [Context.expected, Sink.write_str, hw]
  · intro hw
    simp [Context.operation, Sink.write_str, hw]

/-- Witness for C6 at a concrete pair context and an accepting sink. -/
theorem expectedContext_spec_witness :
    (Context.expCtx ⟨"op", "val"⟩).has_expected = true ∧
    (Context.expCtx ⟨"op", "val"⟩).expected okSink
      = .ok ⟨okSink.buf ++ "val", okSink.writeOk⟩ ∧
    (Context.expCtx ⟨"op", "val"⟩).operation okSink
      = .ok ⟨okSink.buf ++ "op", okSink.writeOk⟩ :=
  ⟨(expectedContext_spec ⟨"op", "val"⟩ okSink).1.mpr (by decide),
   (expectedContext_spec ⟨"op", "val"⟩ okSink).2.2.2.1 rfl,
   (expectedContext_spec ⟨"op", "val"⟩ okSink).2.2.2.2 rfl⟩

/-- C7: for the operation-only variant (`OperationContext`), for every
operation text and every sink, `has_expected` is `false`, and `expected`
returns the formatting-error sentinel `Err(fmt::Error)` — it never
succeeds (so it neither panics nor silently writes empty output). -/
theorem operationContext_spec (c : OperationContext) (w : Sink) :
    (Context.opCtx c).has_expected = false ∧
    (Context.opCtx c).expected w = .error FmtError.mk ∧
    ∀ w2, (Context.opCtx c).expected w ≠ .ok w2 := by
  refine ⟨rfl, rfl, ?_⟩
  intro w2
  simp [Context.expected, Context.default_expected]

/-- Witness for C7 at a concrete operation text and sink. -/
theorem operationContext_spec_witness :
    (Context.opCtx ⟨"parse body"⟩).has_expected = false ∧
    (Context.opCtx ⟨"parse body"⟩).expected okSink = .error FmtError.mk :=
  ⟨(operationContext_spec ⟨"parse body"⟩ okSink).1,
   (operationContext_spec ⟨"parse body"⟩ okSink).2.1⟩

/-- C8: downcast round-trip: for each built-in variant, erasing to the
`Context` capability and recovering the concrete type through `as_any`
succeeds and yields a value equal to the original. -/
theorem as_any_downcast_roundtrip (s : String) (c1 : ExpectedContext)
    (c2 : OperationContext) :
    (Context.str s).as_any.downcast_str = some s ∧
    (Context.expCtx c1).as_any.downcast_expectedContext = some c1 ∧
    (Context.opCtx c2).as_any.downcast_operationContext = some c2 :=
  ⟨rfl, rfl, rfl⟩

/-- C9: for every built-in variant with `has_expected = true`, `expected`
is exactly one write of some string to the sink: it succeeds whenever the
sink accepts that write, and any failure it returns comes only from the
sink, never from the programming-error sentinel default. -/
theorem has_expected_sound (c : Context) (w : Sink)
    (h : c.has_expected = true) :
    ∃ s, c.expected w = w.write_str s ∧
      (w.writeOk s = true → c.expected w = .ok ⟨w.buf ++ s, w.writeOk⟩) ∧
      (∀ e, c.expected w = .error e → w.writeOk s = false) := by
  cases c with
  | str label =>
    refine ⟨label, rfl, ?_, ?_⟩
    · intro hw
      simp [Context.expected, Sink.write_str, hw]
    · intro e he
      cases hwo : w.writeOk label with
      | false => rfl
      | true => simp [Context.expected, Sink.write_str, hwo] at he
  | expCtx c =>
    refine ⟨c.expected, rfl, ?_, ?_⟩
    · intro hw
      simp [Context.expected, Sink.write_str, hw]
    · intro e he
      cases hwo : w.writeOk c.expected with
      | false => rfl
      | true => simp [Context.expected, Sink.write_str, hwo] at he
  | opCtx c =>
    simp [Context.has_expected, Context.default_has_expected] at h

/-- Witness for C9 at the bare-label variant and an accepting sink. -/
theorem has_expected_sound_witness :
    (Context.str "x").has_expected = true ∧
    ∃ s, (Context.str "x").expected okSink = okSink.write_str s ∧
      (okSink.writeOk s = true →
        (Context.str "x").expected okSink
          = .ok ⟨okSink.buf ++ s, okSink.writeOk⟩) ∧
      (∀ e, (Context.str "x").expected okSink = .error e →
        okSink.writeOk s = false) :=
  ⟨rfl, has_expected_sound (Context.str "x") okSink rfl⟩

/-- C10: for an `ExpectedContext` whose `expected` field is empty (so
`has_expected` is `false`), `expected` does not signal the sentinel: it is
a write of the empty string to the sink, which silently succeeds on an
accepting sink — unlike `OperationContext`, whose `expected` in the same
`has_expected = false` situation returns `fmt::Error`. -/
theorem expectedContext_empty_edge (op : String) (w : Sink) :
    (Context.expCtx ⟨op, ""⟩).has_expected = false ∧
    (Context.expCtx ⟨op, ""⟩).expected w = w.write_str "" ∧
    (w.writeOk "" = true →
      (Context.expCtx ⟨op, ""⟩).expected w = .ok ⟨w.buf ++ "", w.writeOk⟩) ∧
    (Context.opCtx ⟨op⟩).has_expected = false ∧
    (Context.opCtx ⟨op⟩).expected w = .error FmtError.mk := by
  refine ⟨?_, rfl, ?_, rfl, rfl⟩
  · rfl
  · intro hw
    simp [Context.expected, Sink.write_str, hw]

/-- Witness for C10 at a concrete operation text and an accepting sink. -/
theorem expectedContext_empty_edge_witness :
    (Context.expCtx ⟨"p", ""⟩).has_expected = false ∧
    (Context.expCtx ⟨"p", ""⟩).expected okSink
      = .ok ⟨okSink.buf ++ "", okSink.writeOk⟩ ∧
    (Context.opCtx ⟨"p"⟩).expected okSink = .error FmtError.mk :=
  ⟨(expectedContext_empty_edge "p" okSink).1,
   (expectedContext_empty_edge "p" okSink).2.2.1 rfl,
   (expectedContext_empty_edge "p" okSink).2.2.2.2⟩

end RustDangerous
